import Mathlib

/-!
Verification of the audio-container codec (`src/wav/wav.go`) and the
document-store layer (`src/unnamed/part_000`, package `utils`) of the
song-recognition repository.  Byte streams are modelled as `List ℕ`
(each entry a byte value `< 256`), Go strings as `List Char`, machine
integers as `ℕ`/`ℤ` with explicit `% 2^w` at each Go conversion, and
`float64` sample values as exact rationals (division of an `int16`
value by the power of two `32768.0` is exact in `float64`).
-/

namespace Wav

/-- Error values of the wav package, one per distinct `errors.New` /
`fmt.Errorf` site reachable in the embedded functions. -/
inductive WavErr where
  /-- "values must be greater than zero (sampleRate: ..., channels: ..., bitsPerSample: ...)" -/
  | invalidParams
  /-- "data size not divisible by channels" -/
  | notDivisible
  /-- "invalid WAV file size (too small)" -/
  | tooSmall
  /-- "invalid WAV header format" -/
  | badHeader
  /-- "unsupported bits per sample format" -/
  | unsupportedBits
  /-- "invalid input length" -/
  | invalidInputLength
  deriving DecidableEq, Repr

/-- Little-endian bytes written by `binary.Write` for a `uint16` value. -/
def u16le (n : ℕ) : List ℕ := [n % 256, n / 256 % 256]

/-- Little-endian bytes written by `binary.Write` for a `uint32` value. -/
def u32le (n : ℕ) : List ℕ :=
  [n % 256, n / 256 % 256, n / 2 ^ 16 % 256, n / 2 ^ 24 % 256]

/-- The bytes of the literal `"RIFF"`. -/
def riffMagic : List ℕ := [82, 73, 70, 70]

/-- The bytes of the literal `"WAVE"`. -/
def waveTag : List ℕ := [87, 65, 86, 69]

/-- The bytes of the literal `"fmt "`. -/
def fmtTag : List ℕ := [102, 109, 116, 32]

/-- The bytes of the literal `"data"`. -/
def dataTag : List ℕ := [100, 97, 116, 97]

/-- The 44 bytes of the `WavHeader` value built by `writeWavHeader`, as
`binary.Write` lays them out (little-endian, packed).  Go's integer
conversions `uint16 x` and `uint32 x` become `% 2^16` / `% 2^32`. -/
def wavHeaderBytes (dataLen sampleRate channels bitsPerSample : ℕ) : List ℕ :=
  let bytesPerSample := bitsPerSample / 8
  riffMagic ++ u32le ((36 + dataLen) % 2 ^ 32) ++ waveTag ++ fmtTag ++
    u32le 16 ++ u16le 1 ++ u16le (channels % 2 ^ 16) ++
    u32le (sampleRate % 2 ^ 32) ++
    u32le (sampleRate * channels * bytesPerSample % 2 ^ 32) ++
    u16le (channels * bytesPerSample % 2 ^ 16) ++
    u16le (bitsPerSample % 2 ^ 16) ++ dataTag ++ u32le (dataLen % 2 ^ 32)

/-- `writeWavHeader`: validates divisibility, then builds the header.  In Go
the header bytes are written to the open file; here they are returned so the
caller can place them in the file model. -/
def writeWavHeader (data : List ℕ) (sampleRate channels bitsPerSample : ℕ) :
    Except WavErr (List ℕ) :=
  if data.length % channels ≠ 0 then .error .notDivisible
  else .ok (wavHeaderBytes data.length sampleRate channels bitsPerSample)

/-- `WriteWavFile`.  The caller-supplied sink (the named file) is modelled as
`Option (List ℕ)`: `none` when absent, `some bs` when it exists with content
`bs`.  The function takes the sink's prior state and returns its final state
together with the returned error.  Faithful to the source order:
`os.Create` first creates/truncates the file, the parameter validation and
the header validation come after. -/
def writeWavFile (_fs : Option (List ℕ)) (data : List ℕ)
    (sampleRate channels bitsPerSample : ℤ) :
    Option (List ℕ) × Option WavErr :=
  -- os.Create succeeds: the file now exists, truncated to empty
  if sampleRate ≤ 0 ∨ channels ≤ 0 ∨ bitsPerSample ≤ 0 then
    (some [], some .invalidParams)
  else
    match writeWavHeader data sampleRate.toNat channels.toNat bitsPerSample.toNat with
    | .error e => (some [], some e)
    | .ok header => (some (header ++ data), none)

/-- `WavInfo` as extracted by `ReadWavInfo`.  The `Duration float64` field is
the one float computation of the file and is not used by any claim; it is
omitted here, but the `BitsPerSample == 16` gate guarding its computation is
kept in `readWavInfo`. -/
structure WavInfo where
  channels : ℕ
  sampleRate : ℕ
  data : List ℕ
  deriving DecidableEq, Repr

/-- `binary.LittleEndian`-style read of a `uint16` at byte offset `i`. -/
def readU16 (bs : List ℕ) (i : ℕ) : ℕ := bs.getD i 0 + 256 * bs.getD (i + 1) 0

/-- `binary.LittleEndian`-style read of a `uint32` at byte offset `i`. -/
def readU32 (bs : List ℕ) (i : ℕ) : ℕ :=
  bs.getD i 0 + 256 * bs.getD (i + 1) 0 + 2 ^ 16 * bs.getD (i + 2) 0 +
    2 ^ 24 * bs.getD (i + 3) 0

/-- `ReadWavInfo` on the file's bytes: length check, `binary.Read` of the 44
header bytes, the `"RIFF"` / `"WAVE"` / `AudioFormat == 1` check, and the
`BitsPerSample == 16` gate; on success the channel count, sample rate and
everything after byte 44. -/
def readWavInfo (bs : List ℕ) : Except WavErr WavInfo :=
  if bs.length < 44 then .error .tooSmall
  else if bs.take 4 ≠ riffMagic ∨ (bs.drop 8).take 4 ≠ waveTag ∨ readU16 bs 20 ≠ 1 then
    .error .badHeader
  else if readU16 bs 34 = 16 then
    .ok ⟨readU16 bs 22, readU32 bs 24, bs.drop 44⟩
  else .error .unsupportedBits

/-- Go's `int16(x)` reinterpretation of a `uint16` value. -/
def int16OfU16 (n : ℕ) : ℤ := if n < 32768 then (n : ℤ) else (n : ℤ) - 65536

/-- The loop body of `WavBytesToSamples`: consume the bytes two at a time,
interpret each pair as a little-endian `int16`, scale by `/ 32768.0`
(exact in `float64`, hence modelled in `ℚ`). -/
def bytesToSamples : List ℕ → List ℚ
  | b0 :: b1 :: rest => ((int16OfU16 (b0 + 256 * b1) : ℚ) / 32768) :: bytesToSamples rest
  | _ => []

/-- `WavBytesToSamples`: even-length check, then the conversion loop. -/
def wavBytesToSamples (input : List ℕ) : Except WavErr (List ℚ) :=
  if input.length % 2 ≠ 0 then .error .invalidInputLength
  else .ok (bytesToSamples input)

end Wav

namespace Db

/-- `models.Couple`: two unsigned 32-bit fields.  The `< 2^32` range is a
hypothesis of the theorems that need it rather than part of the type. -/
structure Couple where
  anchorTimeMs : ℕ
  songID : ℕ
  deriving DecidableEq, Repr

/-- BSON values as the Go driver decodes them into `bson.M`: 64-bit
integers (`int64`), strings, arrays (`primitive.A`) and documents
(`primitive.M`).  Enough of BSON to express every shape the embedded
functions store, read or mis-read. -/
inductive BVal where
  | i64 (v : ℤ)
  | str (s : String)
  | arr (items : List BVal)
  | doc (fields : List (String × BVal))

/-- Go map access `m["k"]` on a decoded document: `none` models the `nil`
interface value an absent key yields. -/
def lookupField : List (String × BVal) → String → Option BVal
  | [], _ => none
  | (k, v) :: rest, key => if k = key then some v else lookupField rest key

/-- Replace the value of field `key` (used for the `$push` update). -/
def setField : List (String × BVal) → String → BVal → List (String × BVal)
  | [], key, v => [(key, v)]
  | (k, w) :: rest, key, v =>
    if k = key then (key, v) :: rest else (k, w) :: setField rest key v

/-- The "fingerprints" collection: documents keyed by their `_id` (the
`uint32` fingerprint address), each holding its remaining fields. -/
abbrev FpColl := List (ℕ × List (String × BVal))

/-- `FindOne` with filter `{_id: addr}`. -/
def findDoc : FpColl → ℕ → Option (List (String × BVal))
  | [], _ => none
  | (a, fields) :: rest, addr =>
    if a = addr then some fields else findDoc rest addr

/-- Replace the document stored under `addr`. -/
def updateDoc : FpColl → ℕ → List (String × BVal) → FpColl
  | [], _, _ => []
  | (a, fields) :: rest, addr, fields' =>
    if a = addr then (addr, fields') :: rest else (a, fields) :: updateDoc rest addr fields'

/-- The `bson.M{"anchorTimeMs": ..., "songID": ...}` document pushed for one
couple.  The driver encodes the Go `uint32` fields as BSON `int64`. -/
def coupleDoc (c : Couple) : BVal :=
  .doc [("anchorTimeMs", .i64 c.anchorTimeMs), ("songID", .i64 c.songID)]

/-- Server-side `{$push: {couples: X}}` on an existing document: append to
the `couples` array, create the field if it is absent, and fail (`none`)
if the stored `couples` field is not an array. -/
def pushCouple (fields : List (String × BVal)) (c : Couple) :
    Option (List (String × BVal)) :=
  match lookupField fields "couples" with
  | none => some (fields ++ [("couples", .arr [coupleDoc c])])
  | some (.arr l) => some (setField fields "couples" (.arr (l ++ [coupleDoc c])))
  | some _ => none

/-- `StoreFingerprints`: one upsert-with-`$push` per map entry.  The Go map's
unspecified iteration order is modelled by taking the entries as a list; the
map carries one `models.Couple` per address.  Result: the final collection,
and `some addr` for the first address whose update failed (the function
returns there without processing later entries). -/
def storeFingerprints : FpColl → List (ℕ × Couple) → FpColl × Option ℕ
  | coll, [] => (coll, none)
  | coll, (addr, c) :: rest =>
    match findDoc coll addr with
    | none =>
      storeFingerprints (coll ++ [(addr, [("couples", .arr [coupleDoc c])])]) rest
    | some fields =>
      match pushCouple fields c with
      | none => (coll, some addr)
      | some fields' => storeFingerprints (updateDoc coll addr fields') rest

/-- Outcome of decoding one stored `couples` array back into `[]models.Couple`. -/
inductive DecodeOutcome where
  /-- every item was a document whose two fields type-asserted cleanly -/
  | ok (cs : List Couple)
  /-- some item was not a `primitive.M`: "invalid couple format in document" -/
  | badFormat
  /-- an item's `anchorTimeMs`/`songID` was absent or not `int64`: the
  unchecked type assertion `.(int64)` makes the Go process panic -/
  | panicked
  deriving DecidableEq, Repr

/-- Go's `uint32(v)` conversion of an `int64`. -/
def toUInt32Nat (v : ℤ) : ℕ := (v % 4294967296).toNat

/-- The decode loop of `GetCouples`: walk the stored array in order; a
non-document item aborts with the "invalid couple format" error; a document
item is read with unchecked `.(int64)` assertions on `anchorTimeMs` and
`songID`, which panic when the value is absent or of another type. -/
def decodeCouples : List BVal → DecodeOutcome
  | [] => .ok []
  | item :: rest =>
    match item with
    | .doc fields =>
      match lookupField fields "anchorTimeMs", lookupField fields "songID" with
      | some (.i64 a), some (.i64 s) =>
        match decodeCouples rest with
        | .ok cs => .ok (⟨toUInt32Nat a, toUInt32Nat s⟩ :: cs)
        | e => e
      | _, _ => .panicked
    | _ => .badFormat

/-- Result of `GetCouples`: the address→couples map (as an association list
in processing order), the first error (which carries the offending address
in its message), or a Go panic. -/
inductive GetResult where
  | ok (m : List (ℕ × List Couple))
  | err (addr : ℕ)
  | panicked
  deriving DecidableEq, Repr

/-- `GetCouples`: for each requested address in order, look the document up
(`ErrNoDocuments` is skipped silently), require `result["couples"]` to be a
`primitive.A`, decode its items, and add the slice to the result map; the
first failure aborts the whole call. -/
def getCouples (coll : FpColl) : List ℕ → GetResult
  | [] => .ok []
  | addr :: rest =>
    match findDoc coll addr with
    | none => getCouples coll rest
    | some fields =>
      match lookupField fields "couples" with
      | some (.arr items) =>
        match decodeCouples items with
        | .ok cs =>
          match getCouples coll rest with
          | .ok m => .ok ((addr, cs) :: m)
          | r => r
        | .badFormat => .err addr
        | .panicked => .panicked
      | _ => .err addr

/-- Does one stored array entry match the Couple schema: a document whose
`anchorTimeMs` and `songID` fields are both `int64`? -/
def validItem : BVal → Bool
  | .doc fields =>
    (match lookupField fields "anchorTimeMs" with
     | some (.i64 _) => true
     | _ => false) &&
    (match lookupField fields "songID" with
     | some (.i64 _) => true
     | _ => false)
  | _ => false

/-- Is a stored `couples` value an array of documents that all decode
cleanly into `models.Couple` (the Couple schema)? -/
def validBucket : BVal → Bool
  | .arr items => items.all validItem
  | _ => false

/-- Does a stored fingerprint document satisfy the Couple schema on its
`couples` field? -/
def validFpDoc (fields : List (String × BVal)) : Bool :=
  match lookupField fields "couples" with
  | some v => validBucket v
  | none => false

/-! ### Song registry

Documents of the "songs" collection are always written by `RegisterSong`
with exactly the fields `{_id: uint32, key: string, ytID: string}`, so the
collection is modelled with that fixed shape.  Go strings are `List Char`. -/

/-- A document of the "songs" collection. -/
structure SongDoc where
  id : ℕ
  key : List Char
  ytID : List Char
  deriving DecidableEq, Repr

abbrev SongsColl := List SongDoc

/-- Modelled from the spec: `GenerateSongKey` is called by `RegisterSong`
but its definition is not among the given sources.  §4.3 derives
`identityKey = title + separator + artist`, and `GetSong` recovers title
and artist by splitting the stored key on the literal `"---"`, so the
separator is `"---"`. -/
def generateSongKey (title artist : List Char) : List Char :=
  title ++ '-' :: '-' :: '-' :: artist

/-- Modelled from the spec: `GenerateUniqueID` is called by `RegisterSong`
but its definition is not among the given sources.  §4.3 requires a songID
generator collision-free across the registry's lifetime ("a random 32-bit
or larger identifier with a uniqueness check, or an equivalent monotonic
allocator"); the monotonic allocator is used here: one more than the
largest identifier in use. -/
def generateUniqueID (coll : SongsColl) : ℕ :=
  (coll.map SongDoc.id).foldr max 0 + 1

/-- Result of `RegisterSong`. -/
inductive RegisterResult where
  /-- the inserted songID and the grown collection -/
  | ok (songID : ℕ) (coll : SongsColl)
  /-- `mongo.IsDuplicateKeyError`: "song with ytID or key already exists" -/
  | duplicate
  deriving DecidableEq, Repr

/-- `RegisterSong`: ensure the unique compound index on `(ytID, key)`, then
`InsertOne` the document `{_id: songID, key: key, ytID: ytID}`.  The insert
fails with a duplicate-key error if a stored document has the same
`(ytID, key)` pair (the compound index) or the same `_id` (the primary
index). -/
def registerSong (coll : SongsColl) (title artist ytID : List Char) :
    RegisterResult :=
  let songID := generateUniqueID coll
  let key := generateSongKey title artist
  if coll.any fun d => d.ytID == ytID && d.key == key then .duplicate
  else if coll.any fun d => d.id == songID then .duplicate
  else .ok songID (coll ++ [⟨songID, key, ytID⟩])

/-- Does the string start with two dashes? -/
def startsDashes2 : List Char → Bool
  | d :: e :: _ => d = '-' && e = '-'
  | _ => false

/-- Go's `strings.Split(s, "---")`: the fields of `s` between leftmost
non-overlapping occurrences of the separator. -/
def splitSep : List Char → List (List Char)
  | [] => [[]]
  | '-' :: '-' :: '-' :: rest => [] :: splitSep rest
  | c :: rest =>
    match splitSep rest with
    | [] => [[c]]
    | p :: ps => (c :: p) :: ps

/-- Does `"---"` occur anywhere in the string? -/
def hasTriple : List Char → Bool
  | [] => false
  | c :: rest => (c = '-' && startsDashes2 rest) || hasTriple rest

/-- Is the last character a dash? -/
def lastIsDash : List Char → Bool
  | [] => false
  | [c] => c = '-'
  | _ :: c :: rest => lastIsDash (c :: rest)

/-- The value a song lookup filters on: `GetSongByID` passes the `uint32`
songID, the other two lookups pass strings. -/
inductive FilterVal where
  | nat (n : ℕ)
  | str (s : List Char)
  deriving DecidableEq, Repr

/-- Result of `GetSong`: the decoded `Song{title, artist, ytID}`, the
not-found outcome, the "invalid filter key" error, or a Go panic (the
unguarded `strings.Split(...)[1]` index). -/
inductive GetSongResult where
  | found (title artist ytID : List Char)
  | notFound
  | invalidFilter
  | panicked
  deriving DecidableEq, Repr

/-- The literal `FILTER_KEYS = "_id | ytID | key"`. -/
def FILTER_KEYS : List Char := "_id | ytID | key".toList

/-- Go's `strings.Contains(s, sub)`: does `sub` occur as a substring of `s`? -/
def goContains : List Char → List Char → Bool
  | [], sub => sub.isEmpty
  | c :: rest, sub => sub.isPrefixOf (c :: rest) || goContains rest sub

/-- Which stored documents a MongoDB filter `{filterKey: value}` matches:
the three fields a songs document actually has match on their value, any
other field name matches no document. -/
def fieldMatches (filterKey : List Char) (value : FilterVal) (d : SongDoc) : Bool :=
  if filterKey = "_id".toList then value == FilterVal.nat d.id
  else if filterKey = "ytID".toList then value == FilterVal.str d.ytID
  else if filterKey = "key".toList then value == FilterVal.str d.key
  else false

/-- `GetSong`: the `strings.Contains(FILTER_KEYS, filterKey)` gate, then
`FindOne` with `{filterKey: value}` (`ErrNoDocuments` is the not-found
outcome), then `ytID`, `title = Split(key, "---")[0]` and
`artist = Split(key, "---")[1]`; the `[1]` index panics when the split
yields fewer than two fields. -/
def getSong (coll : SongsColl) (filterKey : List Char) (value : FilterVal) :
    GetSongResult :=
  if goContains FILTER_KEYS filterKey = false then .invalidFilter
  else
    match coll.find? (fieldMatches filterKey value) with
    | none => .notFound
    | some d =>
      match splitSep d.key with
      | t :: a :: _ => .found t a d.ytID
      | _ => .panicked

/-- `GetSongByKey`. -/
def getSongByKey (coll : SongsColl) (key : List Char) : GetSongResult :=
  getSong coll "key".toList (.str key)

end Db

/-! ## Theorems -/

namespace Wav

/-- The encoded file in cons-normal form: the 44 header bytes followed by
the payload. -/
theorem wavHeader_append (dataLen sampleRate channels bitsPerSample : ℕ)
    (data : List ℕ) :
    wavHeaderBytes dataLen sampleRate channels bitsPerSample ++ data =
      82 :: 73 :: 70 :: 70 ::
      ((36 + dataLen) % 2 ^ 32 % 256) :: ((36 + dataLen) % 2 ^ 32 / 256 % 256) ::
      ((36 + dataLen) % 2 ^ 32 / 2 ^ 16 % 256) :: ((36 + dataLen) % 2 ^ 32 / 2 ^ 24 % 256) ::
      87 :: 65 :: 86 :: 69 :: 102 :: 109 :: 116 :: 32 ::
      16 :: 0 :: 0 :: 0 :: 1 :: 0 ::
      (channels % 2 ^ 16 % 256) :: (channels % 2 ^ 16 / 256 % 256) ::
      (sampleRate % 2 ^ 32 % 256) :: (sampleRate % 2 ^ 32 / 256 % 256) ::
      (sampleRate % 2 ^ 32 / 2 ^ 16 % 256) :: (sampleRate % 2 ^ 32 / 2 ^ 24 % 256) ::
      (sampleRate * channels * (bitsPerSample / 8) % 2 ^ 32 % 256) ::
      (sampleRate * channels * (bitsPerSample / 8) % 2 ^ 32 / 256 % 256) ::
      (sampleRate * channels * (bitsPerSample / 8) % 2 ^ 32 / 2 ^ 16 % 256) ::
      (sampleRate * channels * (bitsPerSample / 8) % 2 ^ 32 / 2 ^ 24 % 256) ::
      (channels * (bitsPerSample / 8) % 2 ^ 16 % 256) ::
      (channels * (bitsPerSample / 8) % 2 ^ 16 / 256 % 256) ::
      (bitsPerSample % 2 ^ 16 % 256) :: (bitsPerSample % 2 ^ 16 / 256 % 256) ::
      100 :: 97 :: 116 :: 97 ::
      (dataLen % 2 ^ 32 % 256) :: (dataLen % 2 ^ 32 / 256 % 256) ::
      (dataLen % 2 ^ 32 / 2 ^ 16 % 256) :: (dataLen % 2 ^ 32 / 2 ^ 24 % 256) :: data := by
  rfl

/-- C1 (amended): for every payload whose byte length is divisible by
`channelCount`, every `0 < channelCount < 2^16`, every
`0 < sampleRateHz < 2^32` and `bitsPerSample = 16`, encoding succeeds and
decoding the produced container yields exactly the same `channelCount` and
`sampleRateHz` and a `rawSampleBytes` byte-identical to the payload.  (The
bounds `channelCount < 2^16` and `sampleRateHz < 2^32` are forced by the
header's `uint16`/`uint32` conversions, see the counterexample.) -/
theorem encode_decode_roundtrip (data : List ℕ) (sampleRate channels : ℕ)
    (h1 : 0 < channels) (h2 : channels < 65536)
    (h3 : 0 < sampleRate) (h4 : sampleRate < 2 ^ 32)
    (h5 : data.length % channels = 0) :
    writeWavFile none data sampleRate channels 16 =
      (some (wavHeaderBytes data.length sampleRate channels 16 ++ data), none) ∧
    readWavInfo (wavHeaderBytes data.length sampleRate channels 16 ++ data) =
      .ok ⟨channels, sampleRate, data⟩ := by
  constructor
  · rw [writeWavFile]
    rw [if_neg (by omega)]
    rw [writeWavHeader]
    rw [if_neg (by simp [h5])]
    simp
  · rw [wavHeader_append]
    rw [readWavInfo]
    rw [if_neg (by simp [List.length_cons])]
    rw [if_neg (by
      simp only [List.take, List.drop, readU16, List.getD, riffMagic, waveTag,
        List.getD_cons_zero, List.getD_cons_succ]
      norm_num)]
    rw [if_pos (by
      simp only [readU16, List.getD_cons_zero, List.getD_cons_succ]
      norm_num)]
    simp only [readU16, readU32, List.getD_cons_zero, List.getD_cons_succ,
      Except.ok.injEq, WavInfo.mk.injEq]
    refine ⟨?_, ?_, ?_⟩
    · norm_num
      omega
    · norm_num
      omega
    · simp [List.drop]

/-- C1 (witness): the round-trip at payload `[]`, 1 Hz, 1 channel. -/
theorem encode_decode_roundtrip_witness :
    writeWavFile none [] 1 1 16 =
      (some (wavHeaderBytes (List.length ([] : List ℕ)) 1 1 16 ++ []), none) ∧
    readWavInfo (wavHeaderBytes (List.length ([] : List ℕ)) 1 1 16 ++ []) =
      .ok ⟨1, 1, []⟩ :=
  encode_decode_roundtrip [] 1 1 (by decide) (by decide) (by decide) (by decide) rfl

/-- C1 (counterexample): with `channelCount = 65536 > 0`, `sampleRateHz = 1`,
`bitsPerSample = 16` and the empty (hence byte-aligned) payload, `Encode`
succeeds, but decoding its output yields `channelCount = 0`, not `65536`:
the header stores the channel count as a `uint16`, so `65536` is truncated
to `0`. -/
theorem roundtrip_truncates_channels :
    (writeWavFile none [] 1 65536 16).2 = none ∧
    readWavInfo (((writeWavFile none [] 1 65536 16).1).getD []) =
      .ok ⟨0, 1, []⟩ ∧ (0 : ℕ) ≠ 65536 := by
  refine ⟨rfl, rfl, by norm_num⟩

/-- C5 (amended): for every input of length at least 44 whose leading 4
bytes are `"RIFF"`, whose bytes 8–11 are `"WAVE"`, whose format-code field
at offset 20 is `1`, and whose bitsPerSample field at offset 34 is `16`,
`ReadWavInfo` succeeds and returns the header's channel count and sample
rate and a `Data` byte-identical to everything after byte 44.  (The
condition on offset 34 is forced: the source rejects every other bit
depth, see the counterexample.) -/
theorem readWavInfo_pcm16_decode (bs : List ℕ)
    (h1 : 44 ≤ bs.length) (h2 : bs.take 4 = riffMagic)
    (h3 : (bs.drop 8).take 4 = waveTag) (h4 : readU16 bs 20 = 1)
    (h5 : readU16 bs 34 = 16) :
    readWavInfo bs = .ok ⟨readU16 bs 22, readU32 bs 24, bs.drop 44⟩ := by
  rw [readWavInfo]
  rw [if_neg (by omega)]
  rw [if_neg (by simp [h2, h3, h4])]
  rw [if_pos h5]

/-- C5 (witness): a 44-byte PCM container with 1 channel, 1 Hz, 16 bits
per sample and empty payload decodes successfully. -/
theorem readWavInfo_pcm16_decode_witness :
    readWavInfo [82, 73, 70, 70, 0, 0, 0, 0, 87, 65, 86, 69, 102, 109, 116, 32,
      16, 0, 0, 0, 1, 0, 1, 0, 1, 0, 0, 0, 0, 0, 0, 0, 1, 0, 16, 0,
      100, 97, 116, 97, 0, 0, 0, 0] = .ok ⟨1, 1, []⟩ :=
  readWavInfo_pcm16_decode _ (by decide) (by decide) (by decide) (by decide) (by decide)

/-- C5 (counterexample): a 44-byte input with the `"RIFF"` magic, the
`"WAVE"` tag and format code 1 but bitsPerSample = 8 satisfies every
condition of the claim, yet `ReadWavInfo` fails ("unsupported bits per
sample format") instead of returning the input's tail: decoding is not
independent of the header's bitsPerSample value. -/
theorem readWavInfo_rejects_low_bitdepth :
    (44 ≤ ([82, 73, 70, 70, 0, 0, 0, 0, 87, 65, 86, 69, 102, 109, 116, 32,
      16, 0, 0, 0, 1, 0, 1, 0, 1, 0, 0, 0, 0, 0, 0, 0, 1, 0, 8, 0,
      100, 97, 116, 97, 0, 0, 0, 0] : List ℕ).length ∧
     ([82, 73, 70, 70, 0, 0, 0, 0, 87, 65, 86, 69, 102, 109, 116, 32,
      16, 0, 0, 0, 1, 0, 1, 0, 1, 0, 0, 0, 0, 0, 0, 0, 1, 0, 8, 0,
      100, 97, 116, 97, 0, 0, 0, 0] : List ℕ).take 4 = riffMagic ∧
     readU16 [82, 73, 70, 70, 0, 0, 0, 0, 87, 65, 86, 69, 102, 109, 116, 32,
      16, 0, 0, 0, 1, 0, 1, 0, 1, 0, 0, 0, 0, 0, 0, 0, 1, 0, 8, 0,
      100, 97, 116, 97, 0, 0, 0, 0] 20 = 1) ∧
    readWavInfo [82, 73, 70, 70, 0, 0, 0, 0, 87, 65, 86, 69, 102, 109, 116, 32,
      16, 0, 0, 0, 1, 0, 1, 0, 1, 0, 0, 0, 0, 0, 0, 0, 1, 0, 8, 0,
      100, 97, 116, 97, 0, 0, 0, 0] = .error .unsupportedBits := by
  refine ⟨⟨by decide, by decide, by decide⟩, rfl⟩

/-- C6: `ToSamples` maps the byte pair `0x00,0x80` to exactly `-1`, the
byte pair `0xFF,0x7F` to exactly `32767/32768`, maps each leading 16-bit
little-endian signed sample `s` to exactly `s / 32768`, and fails with the
misaligned-data error on every input of odd byte length. -/
theorem wavBytesToSamples_scaling :
    wavBytesToSamples [0x00, 0x80] = .ok [-1] ∧
    wavBytesToSamples [0xFF, 0x7F] = .ok [32767 / 32768] ∧
    (∀ b0 b1 : ℕ, ∀ rest : List ℕ, rest.length % 2 = 0 →
      wavBytesToSamples (b0 :: b1 :: rest) =
        .ok (((int16OfU16 (b0 + 256 * b1) : ℚ) / 32768) :: bytesToSamples rest)) ∧
    (∀ input : List ℕ, input.length % 2 = 1 →
      wavBytesToSamples input = .error .invalidInputLength) := by
  refine ⟨?_, ?_, ?_, ?_⟩
  · rw [wavBytesToSamples]
    norm_num [bytesToSamples, int16OfU16]
  · rw [wavBytesToSamples]
    norm_num [bytesToSamples, int16OfU16]
  · intro b0 b1 rest h
    rw [wavBytesToSamples, if_neg (by simp [Nat.add_mod, h]), bytesToSamples]
  · intro input h
    rw [wavBytesToSamples, if_pos (by omega)]

/-- C6 (witness): the general sample map at `[1, 2]` and the odd-length
failure at the single byte `[7]`. -/
theorem wavBytesToSamples_scaling_witness :
    wavBytesToSamples [1, 2] =
      .ok (((int16OfU16 (1 + 256 * 2) : ℚ) / 32768) :: bytesToSamples []) ∧
    wavBytesToSamples [7] = .error .invalidInputLength :=
  ⟨wavBytesToSamples_scaling.2.2.1 1 2 [] rfl, wavBytesToSamples_scaling.2.2.2 [7] rfl⟩

/-- The lower and upper value of a decoded `int16`. -/
theorem int16_bounds (n : ℕ) (h : n < 65536) :
    -32768 ≤ int16OfU16 n ∧ int16OfU16 n ≤ 32767 := by
  unfold int16OfU16
  split <;> omega

/-- Scaling an `int16` value by `/ 32768` lands in `[-1, 32767/32768]`. -/
theorem sample_bounds (m : ℤ) (h1 : -32768 ≤ m) (h2 : m ≤ 32767) :
    -1 ≤ (m : ℚ) / 32768 ∧ (m : ℚ) / 32768 ≤ 32767 / 32768 := by
  constructor
  · rw [le_div_iff₀ (by norm_num : (0 : ℚ) < 32768)]
    norm_num
    exact_mod_cast h1
  · rw [div_le_div_iff₀ (by norm_num) (by norm_num : (0 : ℚ) < 32768)]
    have : (m : ℚ) ≤ 32767 := by exact_mod_cast h2
    nlinarith

/-- The conversion loop halves the byte count for even input. -/
theorem bytesToSamples_length : ∀ input : List ℕ, input.length % 2 = 0 →
    (bytesToSamples input).length = input.length / 2
  | [], _ => rfl
  | [_], h => by simp at h
  | _ :: _ :: rest, h => by
    have ih := bytesToSamples_length rest (by simp at h; omega)
    simp [bytesToSamples, ih]
    omega

/-- Every converted sample of byte-valued input lies in `[-1, 32767/32768]`. -/
theorem bytesToSamples_range : ∀ input : List ℕ, (∀ b ∈ input, b < 256) →
    ∀ q ∈ bytesToSamples input, -1 ≤ q ∧ q ≤ 32767 / 32768
  | [], _ => by simp [bytesToSamples]
  | [b], _ => by simp [bytesToSamples]
  | b0 :: b1 :: rest, hb => by
    intro q hq
    rw [bytesToSamples] at hq
    rcases List.mem_cons.mp hq with hq | hq
    · subst hq
      have h0 : b0 < 256 := hb b0 (by simp)
      have h1 : b1 < 256 := hb b1 (by simp)
      have := int16_bounds (b0 + 256 * b1) (by omega)
      exact sample_bounds _ this.1 this.2
    · exact bytesToSamples_range rest (fun b h => hb b (by simp [h])) q hq

/-- C10: for every input of even byte length whose entries are bytes,
`ToSamples` succeeds, returns exactly `length / 2` samples, and every
returned sample lies in `[-1, 32767/32768]`. -/
theorem wavBytesToSamples_even_spec (input : List ℕ)
    (hb : ∀ b ∈ input, b < 256) (hev : input.length % 2 = 0) :
    ∃ l, wavBytesToSamples input = .ok l ∧ l.length = input.length / 2 ∧
      ∀ q ∈ l, -1 ≤ q ∧ q ≤ 32767 / 32768 := by
  refine ⟨bytesToSamples input, ?_, bytesToSamples_length input hev,
    bytesToSamples_range input hb⟩
  rw [wavBytesToSamples, if_neg (by omega)]

/-- C10 (witness): the property at the 4-byte input `[0, 0, 255, 255]`. -/
theorem wavBytesToSamples_even_spec_witness :
    ∃ l, wavBytesToSamples [0, 0, 255, 255] = .ok l ∧
      l.length = ([0, 0, 255, 255] : List ℕ).length / 2 ∧
      ∀ q ∈ l, -1 ≤ q ∧ q ≤ 32767 / 32768 :=
  wavBytesToSamples_even_spec [0, 0, 255, 255] (by decide) rfl

/-- C9 (amended): for every call to `Encode` in which `channelCount ≤ 0`,
`sampleRateHz ≤ 0`, `bitsPerSample ≤ 0`, or the payload length is not
evenly divisible by `channelCount`, the call fails with the
invalid-parameters or misaligned-data error and writes no header or sample
bytes — but the caller-supplied sink is created (truncated to empty)
before the validation runs, rather than left untouched. -/
theorem writeWavFile_invalid_params (fs : Option (List ℕ)) (data : List ℕ)
    (sampleRate channels bitsPerSample : ℤ)
    (h : sampleRate ≤ 0 ∨ channels ≤ 0 ∨ bitsPerSample ≤ 0 ∨
      data.length % channels.toNat ≠ 0) :
    ∃ e, (e = WavErr.invalidParams ∨ e = WavErr.notDivisible) ∧
      writeWavFile fs data sampleRate channels bitsPerSample = (some [], some e) := by
  rw [writeWavFile]
  by_cases hp : sampleRate ≤ 0 ∨ channels ≤ 0 ∨ bitsPerSample ≤ 0
  · exact ⟨.invalidParams, Or.inl rfl, by rw [if_pos hp]⟩
  · have hd : data.length % channels.toNat ≠ 0 := by tauto
    refine ⟨.notDivisible, Or.inr rfl, ?_⟩
    rw [if_neg hp, writeWavHeader, if_pos (by simpa using hd)]

/-- C9 (witness): the amended property at `channelCount = 0`. -/
theorem writeWavFile_invalid_params_witness :
    ∃ e, (e = WavErr.invalidParams ∨ e = WavErr.notDivisible) ∧
      writeWavFile none [] 1 0 16 = (some [], some e) :=
  writeWavFile_invalid_params none [] 1 0 16 (by norm_num)

/-- C9 (counterexample): calling `Encode` with `channelCount = 0` on an
absent sink fails validation, yet the sink afterwards exists (as an empty
file): `os.Create` runs before any validation, so output *is* created at
the caller-supplied sink. -/
theorem writeWavFile_creates_before_validation :
    writeWavFile none [] 1 0 16 = (some [], some .invalidParams) ∧
    (writeWavFile none [] 1 0 16).1 ≠ none := by
  refine ⟨rfl, by decide⟩

end Wav

namespace Db

/-- Looking up a field just written by `setField`. -/
theorem lookupField_setField (fields : List (String × BVal)) (key : String) (v : BVal) :
    lookupField (setField fields key v) key = some v := by
  induction fields with
  | nil => simp [setField, lookupField]
  | cons kv rest ih =>
    obtain ⟨k, w⟩ := kv
    rw [setField]
    by_cases hk : k = key
    · rw [if_pos hk, lookupField, if_pos rfl]
    · rw [if_neg hk, lookupField, if_neg hk, ih]

/-- Finding a document that `updateDoc` just replaced. -/
theorem findDoc_updateDoc (coll : FpColl) (addr : ℕ)
    (fields fields' : List (String × BVal)) (h : findDoc coll addr = some fields) :
    findDoc (updateDoc coll addr fields') addr = some fields' := by
  induction coll with
  | nil => simp [findDoc] at h
  | cons doc rest ih =>
    obtain ⟨a, f⟩ := doc
    rw [updateDoc]
    by_cases ha : a = addr
    · rw [if_pos ha, findDoc, if_pos rfl]
    · rw [findDoc, if_neg ha] at h
      rw [if_neg ha, findDoc, if_neg ha, ih h]

/-- Finding a document just inserted at the back by the upsert. -/
theorem findDoc_append_new (coll : FpColl) (addr : ℕ)
    (fields : List (String × BVal)) (h : findDoc coll addr = none) :
    findDoc (coll ++ [(addr, fields)]) addr = some fields := by
  induction coll with
  | nil => simp [findDoc]
  | cons doc rest ih =>
    obtain ⟨a, f⟩ := doc
    rw [findDoc] at h
    rw [List.cons_append, findDoc]
    by_cases ha : a = addr
    · rw [if_pos ha] at h
      exact absurd h (by simp)
    · rw [if_neg ha] at h ⊢
      exact ih h

/-- Go's `uint32(int64(n))` is the identity on unsigned 32-bit values. -/
theorem toUInt32Nat_of_lt (n : ℕ) (h : n < 4294967296) :
    toUInt32Nat (n : ℤ) = n := by
  unfold toUInt32Nat
  omega

/-- C2: `StoreFingerprints` appends each stored couple to its address's
persisted bucket — creating the bucket (upsert) when the address has no
document (`collA`), appending to the existing `couples` array otherwise
(`collB`) — and storing `c1` at an address, then `c2` at the same address,
then retrieving that address returns `[c1, c2]`, in that order. -/
theorem storeFingerprints_appends (addr : ℕ) (c c' c1 c2 : Couple)
    (collA collB : FpColl) (fields : List (String × BVal)) (l : List BVal)
    (h1 : c1.anchorTimeMs < 4294967296) (h2 : c1.songID < 4294967296)
    (h3 : c2.anchorTimeMs < 4294967296) (h4 : c2.songID < 4294967296)
    (ha : findDoc collA addr = none)
    (hb : findDoc collB addr = some fields)
    (hc : lookupField fields "couples" = some (.arr l)) :
    (storeFingerprints collA [(addr, c)] =
        (collA ++ [(addr, [("couples", .arr [coupleDoc c])])], none) ∧
      findDoc (collA ++ [(addr, [("couples", .arr [coupleDoc c])])]) addr =
        some [("couples", .arr [coupleDoc c])]) ∧
    (storeFingerprints collB [(addr, c')] =
        (updateDoc collB addr (setField fields "couples" (.arr (l ++ [coupleDoc c']))),
          none) ∧
      findDoc (updateDoc collB addr
          (setField fields "couples" (.arr (l ++ [coupleDoc c'])))) addr =
        some (setField fields "couples" (.arr (l ++ [coupleDoc c']))) ∧
      lookupField (setField fields "couples" (.arr (l ++ [coupleDoc c']))) "couples" =
        some (.arr (l ++ [coupleDoc c']))) ∧
    (storeFingerprints [] [(addr, c1)] =
        ([(addr, [("couples", .arr [coupleDoc c1])])], none) ∧
      storeFingerprints [(addr, [("couples", .arr [coupleDoc c1])])] [(addr, c2)] =
        ([(addr, [("couples", .arr [coupleDoc c1, coupleDoc c2])])], none) ∧
      getCouples [(addr, [("couples", .arr [coupleDoc c1, coupleDoc c2])])] [addr] =
        .ok [(addr, [c1, c2])]) := by
  have hp : pushCouple fields c' =
      some (setField fields "couples" (.arr (l ++ [coupleDoc c']))) := by
    unfold pushCouple
    rw [hc]
  refine ⟨⟨?_, ?_⟩, ⟨?_, ?_, ?_⟩, ?_, ?_, ?_⟩
  · simp [storeFingerprints, ha]
  · exact findDoc_append_new collA addr _ ha
  · simp [storeFingerprints, hb, hp]
  · exact findDoc_updateDoc collB addr fields _ hb
  · exact lookupField_setField _ _ _
  · rfl
  · simp [storeFingerprints, findDoc, pushCouple, lookupField, setField, updateDoc]
  · simp [getCouples, findDoc, lookupField, decodeCouples, coupleDoc,
      toUInt32Nat_of_lt _ h1, toUInt32Nat_of_lt _ h2,
      toUInt32Nat_of_lt _ h3, toUInt32Nat_of_lt _ h4]

/-- C2 (witness): the three parts at address 7, with `collA = []`,
`collB = [(7, {couples: []})]`, and couples `⟨1, 2⟩` and `⟨3, 4⟩`. -/
theorem storeFingerprints_appends_witness :
    (storeFingerprints [] [(7, ⟨1, 2⟩)] =
        ([] ++ [(7, [("couples", .arr [coupleDoc ⟨1, 2⟩])])], none) ∧
      findDoc ([] ++ [(7, [("couples", .arr [coupleDoc ⟨1, 2⟩])])]) 7 =
        some [("couples", .arr [coupleDoc ⟨1, 2⟩])]) ∧
    (storeFingerprints [(7, [("couples", BVal.arr [])])] [(7, ⟨1, 2⟩)] =
        (updateDoc [(7, [("couples", BVal.arr [])])] 7
          (setField [("couples", BVal.arr [])] "couples"
            (.arr ([] ++ [coupleDoc ⟨1, 2⟩]))), none) ∧
      findDoc (updateDoc [(7, [("couples", BVal.arr [])])] 7
          (setField [("couples", BVal.arr [])] "couples"
            (.arr ([] ++ [coupleDoc ⟨1, 2⟩])))) 7 =
        some (setField [("couples", BVal.arr [])] "couples"
          (.arr ([] ++ [coupleDoc ⟨1, 2⟩]))) ∧
      lookupField (setField [("couples", BVal.arr [])] "couples"
          (.arr ([] ++ [coupleDoc ⟨1, 2⟩]))) "couples" =
        some (.arr ([] ++ [coupleDoc ⟨1, 2⟩]))) ∧
    (storeFingerprints [] [(7, ⟨1, 2⟩)] =
        ([(7, [("couples", .arr [coupleDoc ⟨1, 2⟩])])], none) ∧
      storeFingerprints [(7, [("couples", .arr [coupleDoc ⟨1, 2⟩])])] [(7, ⟨3, 4⟩)] =
        ([(7, [("couples", .arr [coupleDoc ⟨1, 2⟩, coupleDoc ⟨3, 4⟩])])], none) ∧
      getCouples [(7, [("couples", .arr [coupleDoc ⟨1, 2⟩, coupleDoc ⟨3, 4⟩])])] [7] =
        .ok [(7, [⟨1, 2⟩, ⟨3, 4⟩])]) :=
  storeFingerprints_appends 7 ⟨1, 2⟩ ⟨1, 2⟩ ⟨1, 2⟩ ⟨3, 4⟩ []
    [(7, [("couples", BVal.arr [])])] [("couples", BVal.arr [])] []
    (by norm_num) (by norm_num) (by norm_num) (by norm_num) rfl rfl rfl

/-- An array entry that violates the Couple schema makes the decode loop
return the invalid-format error (entry not a document) or panic (document
entry with an absent or non-`int64` field). -/
theorem decodeCouples_cons (item : BVal) (rest : List BVal)
    (h : validItem item = false) :
    decodeCouples (item :: rest) = .badFormat ∨
      decodeCouples (item :: rest) = .panicked := by
  cases item with
  | i64 v => left; rfl
  | str s => left; rfl
  | arr l => left; rfl
  | doc fields =>
    rcases ha : lookupField fields "anchorTimeMs" with _ | va
    · right; simp [decodeCouples, ha]
    · cases va with
      | i64 a =>
        rcases hs : lookupField fields "songID" with _ | vs
        · right; simp [decodeCouples, ha, hs]
        · cases vs with
          | i64 s => exact absurd h (by simp [validItem, ha, hs])
          | str s => right; simp [decodeCouples, ha, hs]
          | arr l => right; simp [decodeCouples, ha, hs]
          | doc f => right; simp [decodeCouples, ha, hs]
      | str s => right; simp [decodeCouples, ha]
      | arr l => right; simp [decodeCouples, ha]
      | doc f => right; simp [decodeCouples, ha]

/-- A stored array with any schema-violating entry makes the decode loop
fail or panic — it never returns a couple list. -/
theorem decodeCouples_invalid : ∀ items : List BVal,
    items.all validItem = false →
    decodeCouples items = .badFormat ∨ decodeCouples items = .panicked
  | [], h => by simp at h
  | item :: rest, h => by
    rw [List.all_cons, Bool.and_eq_false_iff] at h
    by_cases hv : validItem item = false
    · exact decodeCouples_cons item rest hv
    · have hrest : rest.all validItem = false := by tauto
      have hv' : validItem item = true := by simpa using hv
      cases item with
      | i64 v => simp [validItem] at hv'
      | str s => simp [validItem] at hv'
      | arr l => simp [validItem] at hv'
      | doc fields =>
        rcases ha : lookupField fields "anchorTimeMs" with _ | va
        · simp [validItem, ha] at hv'
        · cases va with
          | str s => simp [validItem, ha] at hv'
          | arr l => simp [validItem, ha] at hv'
          | doc f => simp [validItem, ha] at hv'
          | i64 a =>
            rcases hs : lookupField fields "songID" with _ | vs
            · simp [validItem, ha, hs] at hv'
            · cases vs with
              | str s => simp [validItem, ha, hs] at hv'
              | arr l => simp [validItem, ha, hs] at hv'
              | doc f => simp [validItem, ha, hs] at hv'
              | i64 s =>
                rcases decodeCouples_invalid rest hrest with hd | hd
                · left; simp [decodeCouples, ha, hs, hd]
                · right; simp [decodeCouples, ha, hs, hd]

/-- C3 (amended): for every requested address whose stored bucket exists
but is structurally invalid (the `couples` field or some entry in it does
not match the Couple schema), `GetCouples` fails the whole call — either
with an error identifying the offending address (`couples` absent, not an
array, or containing a non-document entry) or with a Go panic from the
unchecked `.(int64)` type assertion (document entry whose `anchorTimeMs`
or `songID` is absent or not `int64`) — and never silently drops or skips
the corrupt bucket's data. -/
theorem getCouples_invalid_bucket (coll : FpColl) (addr : ℕ)
    (fields : List (String × BVal))
    (h1 : findDoc coll addr = some fields) (h2 : validFpDoc fields = false) :
    getCouples coll [addr] = .err addr ∨ getCouples coll [addr] = .panicked := by
  unfold validFpDoc at h2
  rcases hcv : lookupField fields "couples" with _ | v
  · left; simp [getCouples, h1, hcv]
  · rw [hcv] at h2
    cases v with
    | arr items =>
      have hall : items.all validItem = false := by simpa [validBucket] using h2
      rcases decodeCouples_invalid items hall with hd | hd
      · left; simp [getCouples, h1, hcv, hd]
      · right; simp [getCouples, h1, hcv, hd]
    | i64 w => left; simp [getCouples, h1, hcv]
    | str s => left; simp [getCouples, h1, hcv]
    | doc f => left; simp [getCouples, h1, hcv]

/-- C3 (witness): a bucket whose `couples` field is the string `"bad"`
makes the single-address call fail with the error naming address 0. -/
theorem getCouples_invalid_bucket_witness :
    getCouples [(0, [("couples", BVal.str "bad")])] [0] = .err 0 ∨
      getCouples [(0, [("couples", BVal.str "bad")])] [0] = .panicked :=
  getCouples_invalid_bucket [(0, [("couples", BVal.str "bad")])] 0
    [("couples", BVal.str "bad")] rfl rfl

/-- C3 (counterexample): a stored bucket at address 0 whose single entry is
a document with a string-valued `anchorTimeMs` violates the Couple schema,
yet `GetCouples([0])` panics on the unchecked `.(int64)` type assertion
instead of returning the corrupt-record error the claim requires. -/
theorem getCouples_panics_on_bad_field_type :
    validFpDoc [("couples", BVal.arr [BVal.doc [("anchorTimeMs", BVal.str "x")]])] =
      false ∧
    getCouples [(0, [("couples",
        BVal.arr [BVal.doc [("anchorTimeMs", BVal.str "x")]])])] [0] =
      .panicked ∧
    GetResult.panicked ≠ .err 0 :=
  ⟨rfl, rfl, by decide⟩

/-- C4 (evaluation at the failing input): `"id"` is none of the three
allow-listed field names, yet `strings.Contains("_id | ytID | key", "id")`
is true (it is a substring of `"_id"`), so `GetSong` does not fail with the
invalid-filter error — it goes on to perform the lookup (here: not found
on the empty collection). -/
theorem getSong_substring_filter_hole :
    goContains FILTER_KEYS "id".toList = true ∧
    ("id".toList ≠ "_id".toList ∧ "id".toList ≠ "ytID".toList ∧
      "id".toList ≠ "key".toList) ∧
    getSong [] "id".toList (.str []) = .notFound ∧
    getSong [] "id".toList (.str []) ≠ .invalidFilter := by
  refine ⟨by decide, ⟨by decide, by decide, by decide⟩, rfl, by decide⟩

/-- Reduction of `splitSep` at a cons cell that does not start the
separator. -/
theorem splitSep_cons (c : Char) (rest : List Char)
    (h : (c = '-' && startsDashes2 rest) = false) :
    splitSep (c :: rest) =
      match splitSep rest with
      | [] => [[c]]
      | p :: ps => (c :: p) :: ps := by
  apply splitSep.eq_3
  intro r hc hr
  subst hc
  subst hr
  simp [startsDashes2] at h

/-- A string without the separator is a single field. -/
theorem splitSep_no_triple (l : List Char) (h : hasTriple l = false) :
    splitSep l = [l] := by
  induction l with
  | nil => rfl
  | cons c rest ih =>
    simp only [hasTriple, Bool.or_eq_false_iff] at h
    rw [splitSep_cons c rest h.1, ih h.2]

/-- Splitting `title ++ "---" ++ artist` takes `title` as the first field
when `title` neither contains the separator nor ends in a dash. -/
theorem splitSep_append (title artist : List Char)
    (h1 : hasTriple title = false) (h2 : lastIsDash title = false) :
    splitSep (title ++ '-' :: '-' :: '-' :: artist) = title :: splitSep artist := by
  induction title with
  | nil => rw [List.nil_append, splitSep.eq_2]
  | cons c t ih =>
    simp only [hasTriple, Bool.or_eq_false_iff] at h1
    have hcond : (c = '-' && startsDashes2 (t ++ '-' :: '-' :: '-' :: artist)) = false := by
      match t, h1, h2 with
      | [], _, h2 =>
        have hc : (c = '-') = False := by simpa [lastIsDash] using h2
        simp [hc]
      | [d], _, h2 =>
        have hd : (d = '-') = False := by simpa [lastIsDash] using h2
        simp [startsDashes2, hd]
      | d :: e :: t', h1, _ =>
        have hde : (c = '-' && startsDashes2 (d :: e :: t')) = false := h1.1
        simpa [startsDashes2] using hde
    rw [List.cons_append, splitSep_cons c _ hcond]
    cases t with
    | nil => rw [List.nil_append, splitSep.eq_2]
    | cons d t' =>
      have hlast : lastIsDash (d :: t') = false := by simpa [lastIsDash] using h2
      rw [ih h1.2 hlast]

/-- A member's identifier is below the allocator's next identifier. -/
theorem le_foldr_max : ∀ (l : List ℕ) (x : ℕ), x ∈ l → x ≤ l.foldr max 0
  | [], _, hx => by simp at hx
  | a :: rest, x, hx => by
    rcases List.mem_cons.mp hx with h | h
    · subst h
      exact le_max_left _ _
    · exact (le_foldr_max rest x h).trans (le_max_right _ _)

/-- Every stored identifier is strictly below the freshly generated one. -/
theorem id_lt_generateUniqueID (coll : SongsColl) (d : SongDoc) (hd : d ∈ coll) :
    d.id < generateUniqueID coll := by
  unfold generateUniqueID
  have := le_foldr_max (coll.map SongDoc.id) d.id (List.mem_map_of_mem _ hd)
  omega

/-- C7: `Register` preserves the global uniqueness of the
`(externalRef, identityKey)` pair: on a collection already holding a record
with the same `ytID` and the same key it fails with the duplicate error,
while on a collection with no such record it succeeds and yields a songID
distinct from every stored one. -/
theorem registerSong_unique (coll collDup : SongsColl)
    (title artist ytID t2 a2 y2 : List Char)
    (hdup : ∃ d ∈ collDup, d.ytID = y2 ∧ d.key = generateSongKey t2 a2)
    (hfresh : ¬ ∃ d ∈ coll, d.ytID = ytID ∧ d.key = generateSongKey title artist) :
    registerSong collDup t2 a2 y2 = .duplicate ∧
    registerSong coll title artist ytID =
      .ok (generateUniqueID coll)
        (coll ++ [⟨generateUniqueID coll, generateSongKey title artist, ytID⟩]) ∧
    (coll.all fun d => d.id != generateUniqueID coll) = true := by
  have hall : (coll.all fun d => d.id != generateUniqueID coll) = true := by
    rw [List.all_eq_true]
    intro d hd
    have := id_lt_generateUniqueID coll d hd
    simp
    omega
  refine ⟨?_, ?_, hall⟩
  · have hany : (collDup.any fun d => d.ytID == y2 && d.key == generateSongKey t2 a2)
        = true := by
      rcases hdup with ⟨d, hd, hy, hk⟩
      exact List.any_eq_true.mpr ⟨d, hd, by simp [hy, hk]⟩
    simp [registerSong, hany]
  · have hany : (coll.any fun d => d.ytID == ytID && d.key == generateSongKey title artist)
        = false := by
      rw [List.any_eq_false]
      intro d hd hcontra
      exact hfresh ⟨d, hd, by simpa using hcontra⟩
    have hid : (coll.any fun d => d.id == generateUniqueID coll) = false := by
      rw [List.any_eq_false]
      intro d hd hcontra
      have := id_lt_generateUniqueID coll d hd
      simp at hcontra
      omega
    simp [registerSong, hany, hid]

/-- C7 (witness): a duplicate `(ytID, key)` registration against the
one-record collection is rejected, and a registration against the empty
collection succeeds with the fresh identifier 1. -/
theorem registerSong_unique_witness :
    registerSong [⟨1, generateSongKey "t".toList "a".toList, "y".toList⟩]
      "t".toList "a".toList "y".toList = .duplicate ∧
    registerSong [] "t".toList "a".toList "y".toList =
      .ok (generateUniqueID ([] : SongsColl))
        ([] ++ [⟨generateUniqueID ([] : SongsColl),
          generateSongKey "t".toList "a".toList, "y".toList⟩]) ∧
    (List.all ([] : SongsColl) fun d => d.id != generateUniqueID ([] : SongsColl))
      = true :=
  registerSong_unique []
    [⟨1, generateSongKey "t".toList "a".toList, "y".toList⟩]
    "t".toList "a".toList "y".toList "t".toList "a".toList "y".toList
    (by decide) (by decide)

/-- C8 (amended): for every title that contains no `"---"` and does not end
in `'-'`, and every artist that contains no `"---"`, splitting the derived
key `title ++ "---" ++ artist` recovers exactly `[title, artist]`, and the
song returned by `GetSong` after registering carries back exactly the
registered title and artist.  (The restrictions are forced: the separator
`"---"` can collide with ordinary title/artist text, see the
counterexample.) -/
theorem songKey_roundtrip (title artist ytID : List Char)
    (h1 : hasTriple title = false) (h2 : lastIsDash title = false)
    (h3 : hasTriple artist = false) :
    splitSep (generateSongKey title artist) = [title, artist] ∧
    registerSong [] title artist ytID =
      .ok 1 [⟨1, generateSongKey title artist, ytID⟩] ∧
    getSongByKey [⟨1, generateSongKey title artist, ytID⟩]
      (generateSongKey title artist) = .found title artist ytID := by
  have hsplit : splitSep (generateSongKey title artist) = [title, artist] := by
    unfold generateSongKey
    rw [splitSep_append title artist h1 h2, splitSep_no_triple artist h3]
  refine ⟨hsplit, by simp [registerSong, generateUniqueID], ?_⟩
  rw [getSongByKey, getSong, if_neg (by decide)]
  have hmatch : fieldMatches ['k', 'e', 'y'] (.str (generateSongKey title artist))
      ⟨1, generateSongKey title artist, ytID⟩ = true := by
    rw [fieldMatches, if_neg (by decide), if_neg (by decide), if_pos (by decide)]
    simp
  simp [List.find?, hmatch, hsplit]

/-- C8 (witness): the key round-trip at title `"t"`, artist `"a"`. -/
theorem songKey_roundtrip_witness :
    splitSep (generateSongKey "t".toList "a".toList) = ["t".toList, "a".toList] ∧
    registerSong [] "t".toList "a".toList "y".toList =
      .ok 1 [⟨1, generateSongKey "t".toList "a".toList, "y".toList⟩] ∧
    getSongByKey [⟨1, generateSongKey "t".toList "a".toList, "y".toList⟩]
      (generateSongKey "t".toList "a".toList) =
      .found "t".toList "a".toList "y".toList :=
  songKey_roundtrip "t".toList "a".toList "y".toList (by decide) (by decide)
    (by decide)

/-- C8 (counterexample): registering title `"a---b"` and artist `"c"`
stores the key `"a---b---c"`, and the lookup returns title `"a"` and
artist `"b"` — not the registered pair: the separator `"---"` collides
with ordinary title text, so the original title and artist are not
recoverable for every title and artist. -/
theorem songKey_not_recoverable :
    registerSong [] "a---b".toList "c".toList "y".toList =
      .ok 1 [⟨1, "a---b---c".toList, "y".toList⟩] ∧
    getSongByKey [⟨1, "a---b---c".toList, "y".toList⟩] "a---b---c".toList =
      .found "a".toList "b".toList "y".toList ∧
    "a".toList ≠ "a---b".toList ∧ "b".toList ≠ "c".toList := by
  refine ⟨by decide, by decide, by decide, by decide⟩

end Db
